import Mathlib

/-!
Verification of the Highlight Interval Playback Engine
(`src/services/intervalPlayer.ts`, class `IntervalPlayer`).

The engine is embedded as a pure state machine.  JavaScript timers are
modelled explicitly: `setTimeout` appends a `Timer` (fresh numeric handle,
a kind describing its callback, and its delay) to the list of live timers;
`clearTimeout h` removes the timer with handle `h`; firing a timer removes
it and runs the state transition of its callback.  Commands issued to the
external YouTube player and notifications delivered to the registered
interval-change observer are recorded as append-only traces, so theorems
can speak about exactly which effects each operation produces.
-/

/-- The `HighlightInterval` record from `src/types` as used by the engine.
Times are in seconds; the source stores JavaScript numbers, used here at
integer precision (the engine only compares, subtracts and multiplies
them). -/
structure HighlightInterval where
  id : String
  name : String
  startTime : Int
  endTime : Int
  reason : String
deriving Repr, DecidableEq

/-- The capability surface of the bound external YouTube player: which of
the command methods are present as functions on the player object.  A
player object can exist while its methods are not yet attached, which is
exactly what `isPlayerReady` probes with `typeof` checks. -/
structure Player where
  hasSeekTo : Bool
  hasPlayVideo : Bool
  hasPauseVideo : Bool
  hasGetPlayerState : Bool
  hasDestroy : Bool
deriving Repr, DecidableEq

/-- A command issued to the external player, recorded in the command
trace. -/
inductive PlayerCmd where
  | seekTo (time : Int) (allowSeekAhead : Bool)
  | playVideo
  | pauseVideo
  | destroyPlayer
deriving Repr, DecidableEq

/-- What the callback of a pending `setTimeout` does when it fires.

* `settle interval` — the anonymous settling-delay timeout inside
  `playCurrentInterval`; its callback computes the segment duration from
  the captured `currentInterval` and arms the segment-end timer.
* `segmentEnd` — the timer stored in `this.intervalTimer` by
  `playCurrentInterval`; its callback performs the last-interval check and
  either finishes or advances the cursor.
* `specificPause` — the timer stored in `this.intervalTimer` by
  `playSpecificInterval`; its callback only pauses the player.
* `seekPlayDelay` — the anonymous 200 ms timeout inside
  `seekToIntervalAndPlay`; its callback calls `playCurrentInterval`. -/
inductive TimerKind where
  | settle (interval : HighlightInterval)
  | segmentEnd
  | specificPause
  | seekPlayDelay
deriving Repr, DecidableEq

/-- A live JavaScript timer: its handle, its callback kind and the delay
(milliseconds) it was armed with. -/
structure Timer where
  id : Nat
  kind : TimerKind
  delay : Int
deriving Repr, DecidableEq

/-- The mutable state of one `IntervalPlayer` instance, together with the
traces of observable effects.

* `intervalTimer` mirrors the `this.intervalTimer` field: the single
  stored timer handle (the only one `clearTimeout` is ever applied to).
* `liveTimers` is the set of timers armed and not yet fired or cleared;
  the source has no such field, it is the ambient JavaScript timer queue.
* `nextTimerId` generates fresh handles.
* `hasCallback` records whether `setOnIntervalChangeCallback` registered
  an observer; `notifications` is the trace of values passed to it.
* `commands` is the trace of commands issued to the external player. -/
structure EngineState where
  player : Option Player
  intervals : List HighlightInterval
  currentIntervalIndex : Nat
  isPlayingIntervals : Bool
  intervalTimer : Option Nat
  liveTimers : List Timer
  nextTimerId : Nat
  hasCallback : Bool
  notifications : List (Option String)
  commands : List PlayerCmd
deriving Repr, DecidableEq

namespace IntervalPlayer

/-- The field initialisers of the class: no player, no intervals, cursor
0, not sequencing, no timer, no callback. -/
def initialEngine : EngineState :=
  { player := none
    intervals := []
    currentIntervalIndex := 0
    isPlayingIntervals := false
    intervalTimer := none
    liveTimers := []
    nextTimerId := 0
    hasCallback := false
    notifications := []
    commands := [] }

/-- The effect of a successful `initializePlayer` resolution: the engine
stores the handle of the now-existing player object with whatever
capability surface it currently exposes. -/
def bindPlayer (st : EngineState) (p : Player) : EngineState :=
  { st with player := some p }

/-- `setOnIntervalChangeCallback(callback)`: registers the observer. -/
def setOnIntervalChangeCallback (st : EngineState) : EngineState :=
  { st with hasCallback := true }

/-- Invoke the registered observer, exactly as the guarded calls
`if (this.onIntervalChangeCallback) this.onIntervalChangeCallback(x)`
do: appends to the notification trace only when a callback is
registered. -/
def notify (st : EngineState) (x : Option String) : EngineState :=
  if st.hasCallback then { st with notifications := st.notifications ++ [x] }
  else st

/-- Record a command issued to the external player. -/
def emit (st : EngineState) (c : PlayerCmd) : EngineState :=
  { st with commands := st.commands ++ [c] }

/-- `setTimeout(cb, d)`: arm a timer with a fresh handle; returns the
handle.  Arming never cancels anything. -/
def armTimer (st : EngineState) (k : TimerKind) (d : Int) : EngineState × Nat :=
  ({ st with
      liveTimers := st.liveTimers ++ [{ id := st.nextTimerId, kind := k, delay := d }]
      nextTimerId := st.nextTimerId + 1 },
   st.nextTimerId)

/-- The idiom `if (this.intervalTimer) { clearTimeout(this.intervalTimer);
this.intervalTimer = null; }`: cancels the stored timer if one is
stored. -/
def clearIntervalTimer (st : EngineState) : EngineState :=
  match st.intervalTimer with
  | none => st
  | some h =>
      { st with
          intervalTimer := none
          liveTimers := st.liveTimers.filter (fun t => t.id != h) }

/-- The comparator `(a, b) => a.startTime - b.startTime` under the
JavaScript stable sort. -/
def sortByStartTime (l : List HighlightInterval) : List HighlightInterval :=
  l.mergeSort (fun a b => a.startTime ≤ b.startTime)

/-- `setIntervals(intervals)`: `this.intervals = intervals.sort(...)`.
JavaScript `Array.prototype.sort` sorts the argument in place and returns
that same array, so the stored list aliases the caller array.  The second
component of the result is the content of the caller array after the
call. -/
def setIntervals (st : EngineState) (intervals : List HighlightInterval) :
    EngineState × List HighlightInterval :=
  let sorted := sortByStartTime intervals
  ({ st with intervals := sorted, currentIntervalIndex := 0 }, sorted)

/-- `isPlayerReady()`: a player object exists and its four control methods
`seekTo`, `playVideo`, `pauseVideo`, `getPlayerState` are all present. -/
def isPlayerReady (st : EngineState) : Bool :=
  match st.player with
  | none => false
  | some p => p.hasSeekTo && p.hasPlayVideo && p.hasPauseVideo && p.hasGetPlayerState

/-- `playCurrentInterval()` (the synchronous part; the work of its two
nested `setTimeout` callbacks is in `fireSettle` and `fireSegmentEnd`):
guard on player presence and the sequencing flag, guard on readiness, stop
sequencing if the cursor is out of range, otherwise notify the observer of
the new current interval, command seek and play, and arm the anonymous
settling timeout — 500 ms when the cursor is at index 0, 200 ms
otherwise.  The armed settling timeout is not stored in
`this.intervalTimer`. -/
def playCurrentInterval (st : EngineState) : EngineState :=
  if st.player.isNone || !st.isPlayingIntervals then st
  else if !isPlayerReady st then st
  else
    match st.intervals[st.currentIntervalIndex]? with
    | none => { st with isPlayingIntervals := false }
    | some currentInterval =>
        let st := notify st (some currentInterval.id)
        let st := emit st (.seekTo currentInterval.startTime true)
        let st := emit st .playVideo
        (armTimer st (.settle currentInterval)
          (if st.currentIntervalIndex == 0 then 500 else 200)).1

/-- The settling-timeout callback of `playCurrentInterval`: computes
`duration = (endTime - startTime) * 1000` from the captured interval and
arms the segment-end timer, storing its handle in `this.intervalTimer`
without clearing any previously stored handle. -/
def fireSettle (st : EngineState) (interval : HighlightInterval) : EngineState :=
  let duration := (interval.endTime - interval.startTime) * 1000
  let armed := armTimer st .segmentEnd duration
  { armed.1 with intervalTimer := some armed.2 }

/-- The segment-end timer callback of `playCurrentInterval`: if the cursor
is at (or beyond) the last index, stop sequencing, pause the player when
possible and notify the observer with null; otherwise advance the cursor
and re-enter `playCurrentInterval`.  The last-interval test is
`this.currentIntervalIndex >= this.intervals.length - 1` on JavaScript
numbers. -/
def fireSegmentEnd (st : EngineState) : EngineState :=
  if (st.currentIntervalIndex : Int) ≥ (st.intervals.length : Int) - 1 then
    let st := { st with isPlayingIntervals := false }
    let st :=
      match st.player with
      | some p => if p.hasPauseVideo then emit st .pauseVideo else st
      | none => st
    notify st none
  else
    playCurrentInterval { st with currentIntervalIndex := st.currentIntervalIndex + 1 }

/-- The timer callback of `playSpecificInterval`: pauses the player when
possible; touches nothing else. -/
def fireSpecificPause (st : EngineState) : EngineState :=
  match st.player with
  | some p => if p.hasPauseVideo then emit st .pauseVideo else st
  | none => st

/-- Fire the live timer with handle `h`: remove it from the queue and run
its callback.  A handle that is not live (already fired or cleared) does
nothing. -/
def fireTimer (st : EngineState) (h : Nat) : EngineState :=
  match st.liveTimers.find? (fun t => t.id == h) with
  | none => st
  | some t =>
      let st := { st with liveTimers := st.liveTimers.filter (fun u => u.id != h) }
      match t.kind with
      | .settle interval => fireSettle st interval
      | .segmentEnd => fireSegmentEnd st
      | .specificPause => fireSpecificPause st
      | .seekPlayDelay => playCurrentInterval st

/-- `pauseIntervals()`: clear the sequencing flag, cancel the stored
timer, and command pause when the player exposes `pauseVideo`. -/
def pauseIntervals (st : EngineState) : EngineState :=
  let st := { st with isPlayingIntervals := false }
  let st := clearIntervalTimer st
  match st.player with
  | some p => if p.hasPauseVideo then emit st .pauseVideo else st
  | none => st

/-- `playHighlightReel()`: throws when no player is bound or the interval
list is empty, throws a not-ready error when the capability surface is
incomplete; otherwise stops existing playback, sets the sequencing flag,
resets the cursor to 0 and plays the current interval.  The second
component is the thrown error message, `none` on success. -/
def playHighlightReel (st : EngineState) : EngineState × Option String :=
  if st.player.isNone || st.intervals.length == 0 then
    (st, some "YouTube player or intervals not set")
  else if !isPlayerReady st then
    (st, some "YouTube player is not ready yet")
  else
    let st := pauseIntervals st
    let st := { st with isPlayingIntervals := true, currentIntervalIndex := 0 }
    (playCurrentInterval st, none)

/-- `playSpecificInterval(intervalId)`: throws when the id is unknown or
no player is bound; otherwise parks the cursor at the matching index,
clears the sequencing flag, and — when `seekTo` and `playVideo` are
present — seeks, plays and arms a pause-at-end timer whose handle
overwrites `this.intervalTimer` without clearing it.  It never invokes
the observer. -/
def playSpecificInterval (st : EngineState) (intervalId : String) :
    EngineState × Option String :=
  match st.intervals.findIdx? (fun i => i.id == intervalId), st.player with
  | none, _ => (st, some "Interval not found or YouTube player not set")
  | some _, none => (st, some "Interval not found or YouTube player not set")
  | some intervalIndex, some p =>
      let st := { st with currentIntervalIndex := intervalIndex, isPlayingIntervals := false }
      match st.intervals[intervalIndex]? with
      | none => (st, none)
      | some interval =>
          if p.hasSeekTo && p.hasPlayVideo then
            let st := emit st (.seekTo interval.startTime true)
            let st := emit st .playVideo
            let duration := (interval.endTime - interval.startTime) * 1000
            let armed := armTimer st .specificPause duration
            ({ armed.1 with intervalTimer := some armed.2 }, none)
          else (st, none)

/-- `resumeIntervals()`: if not sequencing, set the flag and play the
current interval; otherwise just command play when possible. -/
def resumeIntervals (st : EngineState) : EngineState :=
  if !st.isPlayingIntervals then
    playCurrentInterval { st with isPlayingIntervals := true }
  else
    match st.player with
    | some p => if p.hasPlayVideo then emit st .playVideo else st
    | none => st

/-- `resumeOrStartFromCurrent()`: silently returns when the player is not
ready or no intervals are stored; otherwise sets the sequencing flag and
plays from the current cursor without resetting it. -/
def resumeOrStartFromCurrent (st : EngineState) : EngineState :=
  if !isPlayerReady st then st
  else if st.intervals.length == 0 then st
  else playCurrentInterval { st with isPlayingIntervals := true }

/-- `skipToNextInterval()`: clear the stored timer first; advance only
when `currentIntervalIndex < intervals.length - 1`; then either re-enter
playback (when sequencing) or notify the observer of the new current
interval. -/
def skipToNextInterval (st : EngineState) : EngineState :=
  let st := clearIntervalTimer st
  if (st.currentIntervalIndex : Int) < (st.intervals.length : Int) - 1 then
    let st := { st with currentIntervalIndex := st.currentIntervalIndex + 1 }
    if st.isPlayingIntervals then playCurrentInterval st
    else
      match st.intervals[st.currentIntervalIndex]? with
      | some currentInterval => notify st (some currentInterval.id)
      | none => st
  else st

/-- `skipToPreviousInterval()`: clear the stored timer first; retreat only
when `currentIntervalIndex > 0`; then either re-enter playback (when
sequencing) or notify the observer of the new current interval. -/
def skipToPreviousInterval (st : EngineState) : EngineState :=
  let st := clearIntervalTimer st
  if st.currentIntervalIndex > 0 then
    let st := { st with currentIntervalIndex := st.currentIntervalIndex - 1 }
    if st.isPlayingIntervals then playCurrentInterval st
    else
      match st.intervals[st.currentIntervalIndex]? with
      | some currentInterval => notify st (some currentInterval.id)
      | none => st
  else st

/-- `seekToInterval(intervalIndex)`: rejects an out-of-range index by
returning with no effect at all; otherwise stops playback (clearing the
stored timer), parks the cursor at the index and — when `seekTo` is
present — seeks to the interval start and notifies the observer. -/
def seekToInterval (st : EngineState) (intervalIndex : Int) : EngineState :=
  if intervalIndex < 0 || intervalIndex ≥ (st.intervals.length : Int) then st
  else
    let st := pauseIntervals st
    let st := { st with currentIntervalIndex := intervalIndex.toNat }
    match st.intervals[intervalIndex.toNat]?, st.player with
    | some interval, some p =>
        if p.hasSeekTo then
          notify (emit st (.seekTo interval.startTime true)) (some interval.id)
        else st
    | _, _ => st

/-- `seekToIntervalAndPlay(intervalIndex)`: rejects an out-of-range index;
otherwise stops playback, parks the cursor at the index and — when
`seekTo` is present — seeks, sets the sequencing flag and arms an
anonymous 200 ms timeout whose callback calls `playCurrentInterval`.
That timeout is not stored in `this.intervalTimer`. -/
def seekToIntervalAndPlay (st : EngineState) (intervalIndex : Int) : EngineState :=
  if intervalIndex < 0 || intervalIndex ≥ (st.intervals.length : Int) then st
  else
    let st := pauseIntervals st
    let st := { st with currentIntervalIndex := intervalIndex.toNat }
    match st.intervals[intervalIndex.toNat]?, st.player with
    | some interval, some p =>
        if p.hasSeekTo then
          let st := emit st (.seekTo interval.startTime true)
          let st := { st with isPlayingIntervals := true }
          (armTimer st .seekPlayDelay 200).1
        else st
    | _, _ => st

/-- `getCurrentInterval()`: `this.intervals[this.currentIntervalIndex] ||
null`. -/
def getCurrentInterval (st : EngineState) : Option HighlightInterval :=
  st.intervals[st.currentIntervalIndex]?

/-- `destroy()`: stop playback (clearing the stored timer), command the
player to destroy itself when possible, and reset all fields. -/
def destroy (st : EngineState) : EngineState :=
  let st := pauseIntervals st
  let st :=
    match st.player with
    | some p => if p.hasDestroy then emit st .destroyPlayer else st
    | none => st
  { st with player := none, intervals := [], currentIntervalIndex := 0 }

/-- Let the timer queue run: repeatedly fire the oldest live timer, up to
`fuel` firings.  With no control operation interleaved this is exactly
letting every pending `setTimeout` elapse in order. -/
def drain : Nat → EngineState → EngineState
  | 0, st => st
  | fuel + 1, st =>
      match st.liveTimers with
      | [] => st
      | t :: _ => drain fuel (fireTimer st t.id)

/-- A fully capable bound player. -/
def readyPlayer : Player :=
  { hasSeekTo := true
    hasPlayVideo := true
    hasPauseVideo := true
    hasGetPlayerState := true
    hasDestroy := true }

end IntervalPlayer

open IntervalPlayer

/-- Fixture: interval a, 0s to 10s. -/
def intervalA : HighlightInterval := ⟨"a", "A", 0, 10, "r"⟩

/-- Fixture: interval b, 20s to 35s. -/
def intervalB : HighlightInterval := ⟨"b", "B", 20, 35, "r"⟩

/-- Fixture: a player object none of whose control methods exist yet. -/
def noMethodPlayer : Player :=
  { hasSeekTo := false, hasPlayVideo := false, hasPauseVideo := false
    hasGetPlayerState := false, hasDestroy := false }

/-- Fixture: fresh engine with a fully capable player bound and an observer
registered. -/
def boundEngine : EngineState := setOnIntervalChangeCallback (bindPlayer initialEngine readyPlayer)

/-- Fixture: `boundEngine` after `setIntervals([b, a])` (stored sorted as
`[a, b]`). -/
def twoIntervalEngine : EngineState := (setIntervals boundEngine [intervalB, intervalA]).1

/-- Fixture: `boundEngine` after `setIntervals([a])`. -/
def oneIntervalEngine : EngineState := (setIntervals boundEngine [intervalA]).1

/-- Fixture: engine bound to a method-less player with one interval
stored. -/
def notReadyEngine : EngineState :=
  (setIntervals (bindPlayer initialEngine noMethodPlayer) [intervalA]).1

/-- Fixture: engine not sequencing, with the sequencing flag artificially
set, to observe that `setIntervals` does not clear it. -/
def sequencingFlagged : EngineState := { initialEngine with isPlayingIntervals := true }

/-- Fixture: `twoIntervalEngine` right after `playHighlightReel` resolved:
the settling timeout (handle 0, delay 500) is live. -/
def reelStarted : EngineState := (playHighlightReel twoIntervalEngine).1

/-- Fixture: `reelStarted` after the settling timeout fired: the
segment-end timer (handle 1) is live and stored in `intervalTimer`. -/
def reelSettled : EngineState := fireTimer reelStarted 0

/-- Fixture: `reelSettled` after the segment-end timer fired: the engine
advanced to interval b and armed a new settling timeout (handle 2, delay
200). -/
def reelAdvanced : EngineState := fireTimer reelSettled 1

/-- Fixture: `reelAdvanced` after its settling timeout fired: the
segment-end timer for interval b (handle 3) is live. -/
def reelAdvancedSettled : EngineState := fireTimer reelAdvanced 2

/-- Fixture: `reelAdvancedSettled` after `skipToPreviousInterval`: back at
index 0 mid-session, with a fresh settling timeout (handle 4) armed. -/
def skippedBackToFirst : EngineState := skipToPreviousInterval reelAdvancedSettled

/-- Fixture: `reelSettled` after `playSpecificInterval("b")`: the engine
parked on interval b while the segment-end timer of interval a is still
live. -/
def parkedViaSpecific : EngineState := (playSpecificInterval reelSettled "b").1

/-- Fixture: `oneIntervalEngine` after `playHighlightReel` and the
settling timeout: the segment-end timer (handle 1) of the only interval is
live. -/
def oneSettled : EngineState := fireTimer (playHighlightReel oneIntervalEngine).1 0

/-- Handle `h` is dead in `st`: no live timer carries it, so no callback
armed under this handle can still fire. -/
def deadHandle (st : EngineState) (h : Nat) : Prop :=
  ∀ t ∈ st.liveTimers, t.id ≠ h

instance (st : EngineState) (h : Nat) : Decidable (deadHandle st h) := by
  unfold deadHandle
  infer_instance

unseal List.merge List.mergeSort

/-- Claim C5: `playHighlightReel` invoked with no bound player or an empty
interval list, or with a bound player whose four control methods are not
all functions, fails fast by rejecting with an explicit error (the
not-ready condition in the incomplete-capability case), leaving the state
unchanged: no transition timer is armed and the cursor does not
advance. -/
theorem c5_play_reel_fails_fast (st : EngineState) :
    ((st.player = none ∨ st.intervals = []) →
      playHighlightReel st = (st, some "YouTube player or intervals not set"))
    ∧ (∀ p : Player, st.player = some p → st.intervals ≠ [] → isPlayerReady st = false →
      playHighlightReel st = (st, some "YouTube player is not ready yet")) := by
  constructor
  · intro h
    unfold playHighlightReel
    rcases h with h | h <;> simp [h]
  · intro p hp hne hready
    unfold playHighlightReel
    simp [hp, hready, hne]

/-- Claim C9: out-of-range navigation leaves the observable state
unchanged and does not crash: `skipToNextInterval` at the last index and
`skipToPreviousInterval` at index 0 leave the cursor unchanged, emit no
notification and issue no player command, and `seekToInterval` with an
index outside the valid range leaves the entire state unchanged, issuing
no seek command. -/
theorem c9_boundary_navigation_noop (st : EngineState) (i : Int) :
    (st.currentIntervalIndex + 1 = st.intervals.length →
      (skipToNextInterval st).currentIntervalIndex = st.currentIntervalIndex
      ∧ (skipToNextInterval st).notifications = st.notifications
      ∧ (skipToNextInterval st).commands = st.commands)
    ∧ (st.currentIntervalIndex = 0 →
      (skipToPreviousInterval st).currentIntervalIndex = 0
      ∧ (skipToPreviousInterval st).notifications = st.notifications
      ∧ (skipToPreviousInterval st).commands = st.commands)
    ∧ ((i < 0 ∨ (st.intervals.length : Int) ≤ i) → seekToInterval st i = st) := by
  refine ⟨?_, ?_, ?_⟩
  · intro hlast
    have hcond : ¬ ((st.currentIntervalIndex : Int) < (st.intervals.length : Int) - 1) := by
      omega
    unfold skipToNextInterval clearIntervalTimer
    cases ht : st.intervalTimer <;> simp [ht, hcond]
  · intro h0
    unfold skipToPreviousInterval clearIntervalTimer
    cases ht : st.intervalTimer <;> simp [ht, h0]
  · intro hout
    unfold seekToInterval
    rcases hout with h | h <;> simp [h]

/-- Evaluation of one advancing step: with a ready player, the sequencing
flag set and the cursor in range, `playCurrentInterval` notifies the
observer, commands seek and play, and arms one settling timeout whose
delay is 500 ms at index 0 and 200 ms elsewhere. -/
theorem playCurrentInterval_eq (st : EngineState) (iv : HighlightInterval)
    (hp : st.player.isNone = false) (hready : isPlayerReady st = true)
    (hseq : st.isPlayingIntervals = true)
    (hiv : st.intervals[st.currentIntervalIndex]? = some iv) :
    playCurrentInterval st =
      { st with
          notifications :=
            if st.hasCallback then st.notifications ++ [some iv.id] else st.notifications
          commands := st.commands ++ [.seekTo iv.startTime true, .playVideo]
          liveTimers := st.liveTimers ++
            [{ id := st.nextTimerId, kind := .settle iv,
               delay := if st.currentIntervalIndex == 0 then 500 else 200 }]
          nextTimerId := st.nextTimerId + 1 } := by
  unfold playCurrentInterval notify emit armTimer
  rw [hiv]
  simp [hp, hseq, hready]
  split <;> simp [hseq]

/-- Claim C3: when the segment-end timer fires while the cursor is at the
last interval, the engine finishes: it stops sequencing, commands the
player to pause, notifies the observer with none, leaves the cursor at
the final index, and arms no further timer. -/
theorem c3_segment_end_last_finishes (st : EngineState) (h : Nat) (t : Timer) (p : Player)
    (hfind : st.liveTimers.find? (fun u => u.id == h) = some t)
    (hkind : t.kind = TimerKind.segmentEnd)
    (hp : st.player = some p) (hpv : p.hasPauseVideo = true)
    (hcb : st.hasCallback = true)
    (hlast : (st.intervals.length : Int) - 1 ≤ (st.currentIntervalIndex : Int)) :
    (fireTimer st h).isPlayingIntervals = false
    ∧ (fireTimer st h).commands = st.commands ++ [PlayerCmd.pauseVideo]
    ∧ (fireTimer st h).notifications = st.notifications ++ [none]
    ∧ (fireTimer st h).currentIntervalIndex = st.currentIntervalIndex
    ∧ (fireTimer st h).intervals = st.intervals
    ∧ (fireTimer st h).nextTimerId = st.nextTimerId
    ∧ (fireTimer st h).liveTimers = st.liveTimers.filter (fun u => u.id != h) := by
  unfold fireTimer
  rw [hfind]
  simp only []
  rw [hkind]
  unfold fireSegmentEnd notify emit
  simp [hp, hpv, hcb, hlast]

/-- Claim C10: for a stored interval whose id matches,
`playSpecificInterval` parks the cursor at that index and clears the
sequencing flag, never invokes the interval-change observer, and the
end-of-interval timer it arms (when seek and play are available) only
pauses the player when it fires: it never advances the cursor and never
notifies. -/
theorem c10_play_specific_parks_silently (st : EngineState) (p : Player)
    (intervalId : String) (idx : Nat) (interval : HighlightInterval)
    (hp : st.player = some p)
    (hfind : st.intervals.findIdx? (fun i => i.id == intervalId) = some idx)
    (hiv : st.intervals[idx]? = some interval) :
    ((playSpecificInterval st intervalId).2 = none)
    ∧ (playSpecificInterval st intervalId).1.currentIntervalIndex = idx
    ∧ (playSpecificInterval st intervalId).1.isPlayingIntervals = false
    ∧ (playSpecificInterval st intervalId).1.notifications = st.notifications
    ∧ ((p.hasSeekTo && p.hasPlayVideo) = true →
        (playSpecificInterval st intervalId).1.liveTimers =
          st.liveTimers ++
            [{ id := st.nextTimerId, kind := TimerKind.specificPause,
               delay := (interval.endTime - interval.startTime) * 1000 }])
    ∧ ((p.hasSeekTo && p.hasPlayVideo) = false →
        (playSpecificInterval st intervalId).1.liveTimers = st.liveTimers)
    ∧ (∀ st2 : EngineState, ∀ h : Nat, ∀ t : Timer,
        st2.liveTimers.find? (fun u => u.id == h) = some t →
        t.kind = TimerKind.specificPause →
        (fireTimer st2 h).currentIntervalIndex = st2.currentIntervalIndex
        ∧ (fireTimer st2 h).notifications = st2.notifications
        ∧ (fireTimer st2 h).isPlayingIntervals = st2.isPlayingIntervals
        ∧ (fireTimer st2 h).nextTimerId = st2.nextTimerId
        ∧ ((fireTimer st2 h).commands = st2.commands ++ [PlayerCmd.pauseVideo]
            ∨ (fireTimer st2 h).commands = st2.commands)) := by
  refine ⟨?_, ?_, ?_, ?_, ?_, ?_, ?_⟩
  case _ | _ | _ | _ | _ | _ =>
    unfold playSpecificInterval emit armTimer
    rw [hfind, hp]
    simp only [hiv]
    cases hsp : p.hasSeekTo && p.hasPlayVideo <;> simp [hsp, hiv]
  case _ =>
    intro st2 h t hfind2 hkind2
    unfold fireTimer
    rw [hfind2]
    simp only []
    rw [hkind2]
    unfold fireSpecificPause emit
    cases hp2 : st2.player with
    | none => simp
    | some q => cases hpv : q.hasPauseVideo <;> simp [hpv]

/-- Claim C7 (amended): every advancing step validates the capability
surface, but only the top-level `playHighlightReel` fails fast with an
error surfaced to the caller; `playCurrentInterval` and
`resumeOrStartFromCurrent` fail silently, returning the state
unchanged. -/
theorem c7_validation_fail_fast_only_top_level (st : EngineState) (p : Player)
    (hp : st.player = some p) (hready : isPlayerReady st = false) :
    ((playHighlightReel st).2.isSome = true)
    ∧ (playHighlightReel st).1 = st
    ∧ resumeOrStartFromCurrent st = st
    ∧ playCurrentInterval st = st := by
  refine ⟨?_, ?_, ?_, ?_⟩
  · unfold playHighlightReel
    cases hlen : st.intervals.length == 0 <;> simp [hp, hready, hlen]
  · unfold playHighlightReel
    cases hlen : st.intervals.length == 0 <;> simp [hp, hready, hlen]
  · unfold resumeOrStartFromCurrent
    simp [hready]
  · unfold playCurrentInterval
    cases hseq : st.isPlayingIntervals <;> simp [hp, hready, hseq]

/-- Claim C8 (amended): the settling delay armed between seek-plus-play
and the segment-duration timer is 500 ms exactly when the cursor is at
index 0 at scheduling time and 200 ms otherwise; in an uninterrupted
`playHighlightReel` run these are precisely the first and the subsequent
segments. -/
theorem c8_settle_delay_by_index (st : EngineState) (iv : HighlightInterval)
    (hp : st.player.isNone = false) (hready : isPlayerReady st = true)
    (hseq : st.isPlayingIntervals = true)
    (hiv : st.intervals[st.currentIntervalIndex]? = some iv) :
    (playCurrentInterval st).liveTimers =
      st.liveTimers ++
        [{ id := st.nextTimerId, kind := TimerKind.settle iv,
           delay := if st.currentIntervalIndex == 0 then 500 else 200 }] := by
  rw [playCurrentInterval_eq st iv hp hready hseq hiv]

/-- Claim C4 (amended): for every input list, `setIntervals` stores the
input sorted ascending by `startTime` (stably, sorting the caller array
in place, so the caller array holds the sorted list afterwards), resets
the cursor to index 0, and leaves the sequencing flag untouched. -/
theorem c4_set_intervals_sorts_in_place (st : EngineState) (l : List HighlightInterval) :
    (setIntervals st l).1.intervals = sortByStartTime l
    ∧ (setIntervals st l).2 = sortByStartTime l
    ∧ (setIntervals st l).1.currentIntervalIndex = 0
    ∧ (setIntervals st l).1.isPlayingIntervals = st.isPlayingIntervals
    ∧ List.Pairwise (fun a b : HighlightInterval => a.startTime ≤ b.startTime)
        (setIntervals st l).1.intervals
    ∧ (setIntervals st l).1.intervals.Perm l := by
  refine ⟨rfl, rfl, rfl, rfl, ?_, ?_⟩
  · have htrans : ∀ a b c : HighlightInterval,
        (fun x y : HighlightInterval => decide (x.startTime ≤ y.startTime)) a b = true →
        (fun x y : HighlightInterval => decide (x.startTime ≤ y.startTime)) b c = true →
        (fun x y : HighlightInterval => decide (x.startTime ≤ y.startTime)) a c = true := by
      intro a b c hab hbc
      simp only [decide_eq_true_eq] at hab hbc ⊢
      omega
    have htot : ∀ a b : HighlightInterval,
        ((fun x y : HighlightInterval => decide (x.startTime ≤ y.startTime)) a b
          || (fun x y : HighlightInterval => decide (x.startTime ≤ y.startTime)) b a) = true := by
      intro a b
      rcases Int.le_total a.startTime b.startTime with h | h <;> simp [h]
    have h := List.sorted_mergeSort htrans htot l
    exact h.imp (fun hab => of_decide_eq_true hab)
  · exact List.mergeSort_perm l _

/-- Claim C4 counterexample: `setIntervals` sorts the caller array in
place (the caller array does not keep its original order, so no
defensive copy is taken) and it does not clear the sequencing flag. -/
theorem c4_set_intervals_counterexample :
    (setIntervals sequencingFlagged [intervalB, intervalA]).2 ≠ [intervalB, intervalA]
    ∧ (setIntervals sequencingFlagged [intervalB, intervalA]).1.isPlayingIntervals = true := by
  decide

/-- Witness for claim C5 at an engine with no intervals and at an engine
whose bound player has no methods. -/
theorem c5_play_reel_fails_fast_witness :
    playHighlightReel (bindPlayer initialEngine readyPlayer)
      = (bindPlayer initialEngine readyPlayer, some "YouTube player or intervals not set")
    ∧ playHighlightReel notReadyEngine
      = (notReadyEngine, some "YouTube player is not ready yet") :=
  ⟨(c5_play_reel_fails_fast (bindPlayer initialEngine readyPlayer)).1 (Or.inr rfl),
   (c5_play_reel_fails_fast notReadyEngine).2 noMethodPlayer (by decide) (by decide) (by decide)⟩

/-- Witness for claim C9 at a one-interval engine with cursor 0 (both
first and last index) and the out-of-range index 5. -/
theorem c9_boundary_navigation_noop_witness :
    oneIntervalEngine.currentIntervalIndex + 1 = oneIntervalEngine.intervals.length
    ∧ ((skipToNextInterval oneIntervalEngine).currentIntervalIndex
          = oneIntervalEngine.currentIntervalIndex
        ∧ (skipToNextInterval oneIntervalEngine).notifications = oneIntervalEngine.notifications
        ∧ (skipToNextInterval oneIntervalEngine).commands = oneIntervalEngine.commands)
    ∧ ((skipToPreviousInterval oneIntervalEngine).currentIntervalIndex = 0
        ∧ (skipToPreviousInterval oneIntervalEngine).notifications = oneIntervalEngine.notifications
        ∧ (skipToPreviousInterval oneIntervalEngine).commands = oneIntervalEngine.commands)
    ∧ seekToInterval oneIntervalEngine 5 = oneIntervalEngine :=
  ⟨by decide,
   (c9_boundary_navigation_noop oneIntervalEngine 5).1 (by decide),
   (c9_boundary_navigation_noop oneIntervalEngine 5).2.1 (by decide),
   (c9_boundary_navigation_noop oneIntervalEngine 5).2.2 (Or.inr (by decide))⟩

/-- Witness for claim C3: firing the live segment-end timer of a
one-interval reel. -/
theorem c3_segment_end_last_finishes_witness :
    oneSettled.liveTimers.find? (fun u => u.id == 1)
      = some { id := 1, kind := TimerKind.segmentEnd, delay := 10000 }
    ∧ (fireTimer oneSettled 1).isPlayingIntervals = false
    ∧ (fireTimer oneSettled 1).commands = oneSettled.commands ++ [PlayerCmd.pauseVideo]
    ∧ (fireTimer oneSettled 1).notifications = oneSettled.notifications ++ [none]
    ∧ (fireTimer oneSettled 1).currentIntervalIndex = oneSettled.currentIntervalIndex
    ∧ (fireTimer oneSettled 1).intervals = oneSettled.intervals
    ∧ (fireTimer oneSettled 1).nextTimerId = oneSettled.nextTimerId
    ∧ (fireTimer oneSettled 1).liveTimers = oneSettled.liveTimers.filter (fun u => u.id != 1) :=
  ⟨by decide,
   c3_segment_end_last_finishes oneSettled 1
     { id := 1, kind := TimerKind.segmentEnd, delay := 10000 } readyPlayer
     (by decide) rfl (by decide) rfl (by decide) (by decide)⟩

/-- Claim C7 counterexample: with a bound player whose required command
methods are all missing, `resumeOrStartFromCurrent` silently does
nothing: it surfaces no error and returns the state unchanged. -/
theorem c7_silent_noop_counterexample :
    notReadyEngine.player = some noMethodPlayer
    ∧ isPlayerReady notReadyEngine = false
    ∧ resumeOrStartFromCurrent notReadyEngine = notReadyEngine := by
  decide

/-- Witness for the amended claim C7 at the method-less player engine. -/
theorem c7_validation_fail_fast_only_top_level_witness :
    isPlayerReady notReadyEngine = false
    ∧ ((playHighlightReel notReadyEngine).2.isSome = true)
    ∧ (playHighlightReel notReadyEngine).1 = notReadyEngine
    ∧ resumeOrStartFromCurrent notReadyEngine = notReadyEngine
    ∧ playCurrentInterval notReadyEngine = notReadyEngine :=
  ⟨by decide,
   c7_validation_fail_fast_only_top_level notReadyEngine noMethodPlayer (by decide) (by decide)⟩

/-- Claim C8 counterexample: after the reel has advanced to the second
interval, `skipToPreviousInterval` back to index 0 arms a 500 ms settling
delay although this is not the very first segment of the session (three
interval notifications were already delivered). -/
theorem c8_settle_delay_counterexample :
    skippedBackToFirst.notifications = [some "a", some "b", some "a"]
    ∧ skippedBackToFirst.liveTimers
        = [{ id := 4, kind := TimerKind.settle intervalA, delay := 500 }] := by
  decide

/-- Witness for the amended claim C8 at the reel advanced to index 1,
where the armed settling delay is 200 ms. -/
theorem c8_settle_delay_by_index_witness :
    reelAdvanced.currentIntervalIndex = 1
    ∧ (playCurrentInterval { reelAdvanced with liveTimers := [] }).liveTimers
        = [] ++
          [{ id := { reelAdvanced with liveTimers := [] }.nextTimerId,
             kind := TimerKind.settle intervalB,
             delay := if { reelAdvanced with liveTimers := [] }.currentIntervalIndex == 0
                      then 500 else 200 }] :=
  ⟨by decide,
   c8_settle_delay_by_index { reelAdvanced with liveTimers := [] } intervalB
     (by decide) (by decide) (by decide) (by decide)⟩

/-- Witness for claim C10 at the two-interval reel parked on b. -/
theorem c10_play_specific_parks_silently_witness :
    reelSettled.intervals.findIdx? (fun i => i.id == "b") = some 1
    ∧ ((playSpecificInterval reelSettled "b").2 = none)
    ∧ (playSpecificInterval reelSettled "b").1.currentIntervalIndex = 1
    ∧ (playSpecificInterval reelSettled "b").1.isPlayingIntervals = false
    ∧ (playSpecificInterval reelSettled "b").1.notifications = reelSettled.notifications :=
  have h := c10_play_specific_parks_silently reelSettled readyPlayer "b" 1 intervalB
    (by decide) (by decide) (by decide)
  ⟨by decide, h.1, h.2.1, h.2.2.1, h.2.2.2.1⟩

/-- Claim C1 counterexample: with the segment-end timer of interval a
live, `playSpecificInterval` arms its pause timer without clearing the
stored handle, leaving two live timers; the stale segment-end timer then
fires a transition (pause command plus a none notification) after the
engine has parked on interval b. -/
theorem c1_two_timers_live_counterexample :
    reelSettled.intervalTimer = some 1
    ∧ reelSettled.liveTimers = [{ id := 1, kind := TimerKind.segmentEnd, delay := 10000 }]
    ∧ parkedViaSpecific.liveTimers
        = [{ id := 1, kind := TimerKind.segmentEnd, delay := 10000 },
           { id := 2, kind := TimerKind.specificPause, delay := 15000 }]
    ∧ parkedViaSpecific.isPlayingIntervals = false
    ∧ parkedViaSpecific.currentIntervalIndex = 1
    ∧ (fireTimer parkedViaSpecific 1).notifications
        = parkedViaSpecific.notifications ++ [none]
    ∧ (fireTimer parkedViaSpecific 1).commands
        = parkedViaSpecific.commands ++ [PlayerCmd.pauseVideo] := by
  decide

/-- States with the same live timers kill the same handles. -/
theorem deadHandle_congr (st st' : EngineState) (h : Nat)
    (heq : st'.liveTimers = st.liveTimers) (hd : deadHandle st h) : deadHandle st' h := by
  unfold deadHandle at *
  rw [heq]
  exact hd

/-- Clearing the stored timer kills its handle. -/
theorem deadHandle_clear (st : EngineState) (h : Nat) (hst : st.intervalTimer = some h) :
    deadHandle (clearIntervalTimer st) h := by
  unfold clearIntervalTimer
  rw [hst]
  intro t ht
  simp only [List.mem_filter, bne_iff_ne, ne_eq] at ht
  exact ht.2

/-- Arming a fresh timer never resurrects an older handle. -/
theorem deadHandle_armTimer (st : EngineState) (h : Nat) (k : TimerKind) (d : Int)
    (hd : deadHandle st h) (hlt : h < st.nextTimerId) :
    deadHandle (armTimer st k d).1 h := by
  unfold armTimer
  intro t ht
  simp only [List.mem_append, List.mem_singleton] at ht
  rcases ht with ht | ht
  · exact hd t ht
  · subst ht
    show st.nextTimerId ≠ h
    omega

theorem clearIntervalTimer_nextTimerId (st : EngineState) :
    (clearIntervalTimer st).nextTimerId = st.nextTimerId := by
  unfold clearIntervalTimer
  cases st.intervalTimer <;> rfl

theorem pauseIntervals_nextTimerId (st : EngineState) :
    (pauseIntervals st).nextTimerId = st.nextTimerId := by
  unfold pauseIntervals clearIntervalTimer emit
  cases st.intervalTimer <;> cases st.player <;> simp
  all_goals split <;> rfl

theorem notify_liveTimers (st : EngineState) (x : Option String) :
    (notify st x).liveTimers = st.liveTimers := by
  unfold notify
  split <;> rfl

theorem notify_nextTimerId (st : EngineState) (x : Option String) :
    (notify st x).nextTimerId = st.nextTimerId := by
  unfold notify
  split <;> rfl

/-- `playCurrentInterval` arms only fresh handles. -/
theorem deadHandle_playCurrentInterval (st : EngineState) (h : Nat)
    (hd : deadHandle st h) (hlt : h < st.nextTimerId) :
    deadHandle (playCurrentInterval st) h := by
  unfold playCurrentInterval
  split
  · exact hd
  split
  · exact hd
  split
  · exact hd
  apply deadHandle_armTimer
  · exact deadHandle_congr _ _ _ (by simp [emit, notify_liveTimers]) hd
  · simpa [emit, notify_nextTimerId] using hlt

/-- `pauseIntervals` kills the stored handle. -/
theorem deadHandle_pauseIntervals (st : EngineState) (h : Nat)
    (hst : st.intervalTimer = some h) : deadHandle (pauseIntervals st) h := by
  have h1 : deadHandle (clearIntervalTimer { st with isPlayingIntervals := false }) h :=
    deadHandle_clear _ _ hst
  unfold pauseIntervals
  cases hp : (clearIntervalTimer { st with isPlayingIntervals := false }).player
  · simpa [hp] using h1
  · rename_i p
    cases hpv : p.hasPauseVideo <;>
      simp only [hp, hpv, Bool.false_eq_true, if_false, if_true] <;>
      exact deadHandle_congr _ _ _ (by simp [emit]) h1

theorem pauseIntervals_liveTimers_eq_clear (st : EngineState) :
    (pauseIntervals st).liveTimers
      = (clearIntervalTimer { st with isPlayingIntervals := false }).liveTimers := by
  unfold pauseIntervals
  cases hp : (clearIntervalTimer { st with isPlayingIntervals := false }).player
  · simp [hp]
  · rename_i p
    cases hpv : p.hasPauseVideo <;> simp [hp, hpv, emit]

/-- Claim C1 (amended): each of the listed control operations leaves the
previously stored timer handle dead: `pauseIntervals`,
`skipToNextInterval`, `skipToPreviousInterval` and `destroy`
unconditionally, `playHighlightReel` when it does not reject, and
`seekToInterval` and `seekToIntervalAndPlay` on valid indices.  The
single stored handle does not cover the anonymous settling and seek
delays, and `playSpecificInterval` arms without clearing, so more than
one timer can be live. -/
theorem c1_listed_ops_clear_stored_timer (st : EngineState) (h : Nat) (i : Int)
    (hst : st.intervalTimer = some h) (hlt : h < st.nextTimerId) :
    deadHandle (pauseIntervals st) h
    ∧ deadHandle (skipToNextInterval st) h
    ∧ deadHandle (skipToPreviousInterval st) h
    ∧ deadHandle (destroy st) h
    ∧ ((playHighlightReel st).2 = none → deadHandle (playHighlightReel st).1 h)
    ∧ (0 ≤ i → i < (st.intervals.length : Int) → deadHandle (seekToInterval st i) h)
    ∧ (0 ≤ i → i < (st.intervals.length : Int) → deadHandle (seekToIntervalAndPlay st i) h) := by
  have hclr : deadHandle (clearIntervalTimer st) h := deadHandle_clear st h hst
  have hpause : deadHandle (pauseIntervals st) h := deadHandle_pauseIntervals st h hst
  have hpauseN : (pauseIntervals st).nextTimerId = st.nextTimerId := pauseIntervals_nextTimerId st
  have hclrN : (clearIntervalTimer st).nextTimerId = st.nextTimerId :=
    clearIntervalTimer_nextTimerId st
  refine ⟨hpause, ?_, ?_, ?_, ?_, ?_, ?_⟩
  · unfold skipToNextInterval
    dsimp only
    split
    · split
      · exact deadHandle_playCurrentInterval _ _ hclr
          (show h < (clearIntervalTimer st).nextTimerId by omega)
      · split
        · exact deadHandle_congr _ _ _ (by simp [notify_liveTimers]) hclr
        · exact hclr
    · exact hclr
  · unfold skipToPreviousInterval
    dsimp only
    split
    · split
      · exact deadHandle_playCurrentInterval _ _ hclr
          (show h < (clearIntervalTimer st).nextTimerId by omega)
      · split
        · exact deadHandle_congr _ _ _ (by simp [notify_liveTimers]) hclr
        · exact hclr
    · exact hclr
  · unfold destroy
    cases hp : (pauseIntervals st).player
    · simpa [hp] using hpause
    · rename_i p
      cases hpd : p.hasDestroy <;>
        simp only [hp, hpd, Bool.false_eq_true, if_false, if_true] <;>
        exact deadHandle_congr _ _ _ (by simp [emit]) hpause
  · intro hok
    unfold playHighlightReel at hok ⊢
    by_cases h1 : (st.player.isNone || st.intervals.length == 0) = true
    · rw [if_pos h1] at hok
      simp at hok
    · rw [if_neg h1] at hok ⊢
      by_cases h2 : (!isPlayerReady st) = true
      · rw [if_pos h2] at hok
        simp at hok
      · rw [if_neg h2]
        dsimp only
        exact deadHandle_playCurrentInterval _ _ hpause
          (show h < (pauseIntervals st).nextTimerId by omega)
  · intro h0 hlen
    have hcb : (decide (i < 0) || decide (i ≥ (st.intervals.length : Int))) = false := by
      simp only [Bool.or_eq_false_iff, decide_eq_false_iff_not]
      omega
    unfold seekToInterval
    rw [hcb]
    simp only [Bool.false_eq_true, if_false]
    split
    · split
      · exact deadHandle_congr _ _ _ (by simp [notify_liveTimers, emit]) hpause
      · exact hpause
    · exact hpause
  · intro h0 hlen
    have hcb : (decide (i < 0) || decide (i ≥ (st.intervals.length : Int))) = false := by
      simp only [Bool.or_eq_false_iff, decide_eq_false_iff_not]
      omega
    unfold seekToIntervalAndPlay
    rw [hcb]
    simp only [Bool.false_eq_true, if_false]
    split
    · split
      · refine deadHandle_armTimer _ _ _ _ ?_ ?_
        · exact deadHandle_congr _ _ _ (by simp [emit]) hpause
        · show h < (pauseIntervals st).nextTimerId
          omega
      · exact hpause
    · exact hpause

/-- Witness for the amended claim C1 at a concrete sequencing state. -/
theorem c1_listed_ops_clear_stored_timer_witness :
    reelSettled.intervalTimer = some 1
    ∧ (deadHandle (pauseIntervals reelSettled) 1
        ∧ deadHandle (skipToNextInterval reelSettled) 1
        ∧ deadHandle (skipToPreviousInterval reelSettled) 1
        ∧ deadHandle (destroy reelSettled) 1
        ∧ ((playHighlightReel reelSettled).2 = none →
            deadHandle (playHighlightReel reelSettled).1 1)
        ∧ (0 ≤ (0 : Int) → (0 : Int) < (reelSettled.intervals.length : Int) →
            deadHandle (seekToInterval reelSettled 0) 1)
        ∧ (0 ≤ (0 : Int) → (0 : Int) < (reelSettled.intervals.length : Int) →
            deadHandle (seekToIntervalAndPlay reelSettled 0) 1)) :=
  ⟨by decide, c1_listed_ops_clear_stored_timer reelSettled 1 0 (by decide) (by decide)⟩

theorem drain_nil (n : Nat) (st : EngineState) (h : st.liveTimers = []) : drain n st = st := by
  cases n with
  | zero => rfl
  | succ n =>
      unfold drain
      rw [h]

theorem drain_succ (n : Nat) (st : EngineState) (t : Timer) (r : List Timer)
    (h : st.liveTimers = t :: r) : drain (n + 1) st = drain n (fireTimer st t.id) := by
  conv_lhs => unfold drain
  rw [h]

theorem fireTimer_settle (st : EngineState) (h : Nat) (iv : HighlightInterval) (d : Int)
    (hl : st.liveTimers = [{ id := h, kind := TimerKind.settle iv, delay := d }]) :
    fireTimer st h =
      { st with
          liveTimers :=
            [{ id := st.nextTimerId, kind := TimerKind.segmentEnd,
               delay := (iv.endTime - iv.startTime) * 1000 }]
          intervalTimer := some st.nextTimerId
          nextTimerId := st.nextTimerId + 1 } := by
  unfold fireTimer
  rw [hl]
  simp only [List.find?_cons, beq_self_eq_true, List.filter_cons, bne_self_eq_false,
    Bool.false_eq_true, if_false, List.filter_nil]
  unfold fireSettle armTimer
  simp

theorem fireTimer_segmentEnd (st : EngineState) (h : Nat) (d : Int)
    (hl : st.liveTimers = [{ id := h, kind := TimerKind.segmentEnd, delay := d }]) :
    fireTimer st h = fireSegmentEnd { st with liveTimers := [] } := by
  unfold fireTimer
  rw [hl]
  simp only [List.find?_cons, beq_self_eq_true, List.filter_cons, bne_self_eq_false,
    Bool.false_eq_true, if_false, List.filter_nil]

/-- The timer chain: from any ready, sequencing, observed state with no
live timer and the cursor in range, letting the timers fire to
quiescence notifies each remaining interval in order and then none,
ending stopped with no live timer. -/
theorem playChain (m : Nat) : ∀ (st : EngineState),
    st.player = some readyPlayer →
    st.isPlayingIntervals = true →
    st.hasCallback = true →
    st.liveTimers = [] →
    st.currentIntervalIndex + m = st.intervals.length →
    1 ≤ m →
    (drain (2 * m) (playCurrentInterval st)).notifications
        = st.notifications
          ++ (st.intervals.drop st.currentIntervalIndex).map (fun iv => some iv.id)
          ++ [none]
    ∧ (drain (2 * m) (playCurrentInterval st)).liveTimers = []
    ∧ (drain (2 * m) (playCurrentInterval st)).isPlayingIntervals = false
    ∧ (drain (2 * m) (playCurrentInterval st)).intervals = st.intervals := by
  induction m with
  | zero =>
      intro st _ _ _ _ _ hm
      exact absurd hm (by omega)
  | succ m ih =>
      intro st hplayer hseq hcb hlive hsum _
      have hk : st.currentIntervalIndex < st.intervals.length := by omega
      obtain ⟨iv, hivc⟩ : ∃ iv, st.intervals[st.currentIntervalIndex]? = some iv :=
        ⟨_, List.getElem?_eq_getElem hk⟩
      have hiveq : st.intervals[st.currentIntervalIndex] = iv :=
        Option.some.inj ((List.getElem?_eq_getElem hk).symm.trans hivc)
      have hpn : st.player.isNone = false := by rw [hplayer]; rfl
      have hready2 : isPlayerReady st = true := by
        unfold isPlayerReady
        rw [hplayer]
        rfl
      have hdrop : st.intervals.drop st.currentIntervalIndex
          = iv :: st.intervals.drop (st.currentIntervalIndex + 1) := by
        rw [List.drop_eq_getElem_cons hk, hiveq]
      have hpc : playCurrentInterval st =
          { st with
              notifications := st.notifications ++ [some iv.id]
              commands := st.commands
                ++ [PlayerCmd.seekTo iv.startTime true, PlayerCmd.playVideo]
              liveTimers :=
                [{ id := st.nextTimerId, kind := TimerKind.settle iv,
                   delay := if st.currentIntervalIndex == 0 then 500 else 200 }]
              nextTimerId := st.nextTimerId + 1 } := by
        rw [playCurrentInterval_eq st iv hpn hready2 hseq hivc]
        simp [hcb, hlive]
      have e2 : drain (2 * (m + 1)) (playCurrentInterval st)
          = drain (2 * m + 1) (fireTimer (playCurrentInterval st) st.nextTimerId) :=
        drain_succ (2 * m + 1) (playCurrentInterval st)
          { id := st.nextTimerId, kind := TimerKind.settle iv,
            delay := if st.currentIntervalIndex == 0 then 500 else 200 } []
          (by rw [hpc])
      have hf1 : fireTimer (playCurrentInterval st) st.nextTimerId
          = { st with
              notifications := st.notifications ++ [some iv.id]
              commands := st.commands
                ++ [PlayerCmd.seekTo iv.startTime true, PlayerCmd.playVideo]
              liveTimers :=
                [{ id := st.nextTimerId + 1, kind := TimerKind.segmentEnd,
                   delay := (iv.endTime - iv.startTime) * 1000 }]
              intervalTimer := some (st.nextTimerId + 1)
              nextTimerId := st.nextTimerId + 2 } := by
        rw [hpc]
        exact fireTimer_settle _ st.nextTimerId iv _ rfl
      have e3 : drain (2 * m + 1)
            (fireTimer (playCurrentInterval st) st.nextTimerId)
          = drain (2 * m)
              (fireTimer (fireTimer (playCurrentInterval st) st.nextTimerId)
                (st.nextTimerId + 1)) :=
        drain_succ (2 * m) _
          { id := st.nextTimerId + 1, kind := TimerKind.segmentEnd,
            delay := (iv.endTime - iv.startTime) * 1000 } []
          (by rw [hf1])
      have hf2 : fireTimer (fireTimer (playCurrentInterval st) st.nextTimerId)
            (st.nextTimerId + 1)
          = fireSegmentEnd
              { st with
                  notifications := st.notifications ++ [some iv.id]
                  commands := st.commands
                    ++ [PlayerCmd.seekTo iv.startTime true, PlayerCmd.playVideo]
                  liveTimers := []
                  intervalTimer := some (st.nextTimerId + 1)
                  nextTimerId := st.nextTimerId + 2 } := by
        rw [hf1]
        exact fireTimer_segmentEnd _ (st.nextTimerId + 1) _ rfl
      by_cases hm0 : m = 0
      · subst hm0
        have hf3 : fireSegmentEnd
              { st with
                  notifications := st.notifications ++ [some iv.id]
                  commands := st.commands
                    ++ [PlayerCmd.seekTo iv.startTime true, PlayerCmd.playVideo]
                  liveTimers := []
                  intervalTimer := some (st.nextTimerId + 1)
                  nextTimerId := st.nextTimerId + 2 }
            = { st with
                  isPlayingIntervals := false
                  notifications := (st.notifications ++ [some iv.id]) ++ [none]
                  commands := (st.commands
                    ++ [PlayerCmd.seekTo iv.startTime true, PlayerCmd.playVideo])
                    ++ [PlayerCmd.pauseVideo]
                  liveTimers := []
                  intervalTimer := some (st.nextTimerId + 1)
                  nextTimerId := st.nextTimerId + 2 } := by
          unfold fireSegmentEnd
          split
          · dsimp only
            rw [hplayer]
            simp [readyPlayer, notify, emit, hcb]
          · rename_i hcond2
            exact absurd
              (show ((st.currentIntervalIndex : Int) ≥ (st.intervals.length : Int) - 1) by
                omega)
              hcond2
        have hrun : drain (2 * (0 + 1)) (playCurrentInterval st)
            = { st with
                  isPlayingIntervals := false
                  notifications := (st.notifications ++ [some iv.id]) ++ [none]
                  commands := (st.commands
                    ++ [PlayerCmd.seekTo iv.startTime true, PlayerCmd.playVideo])
                    ++ [PlayerCmd.pauseVideo]
                  liveTimers := []
                  intervalTimer := some (st.nextTimerId + 1)
                  nextTimerId := st.nextTimerId + 2 } := by
          rw [e2, e3, hf2, hf3]
          exact drain_nil _ _ rfl
        have hdropnil : st.intervals.drop (st.currentIntervalIndex + 1) = [] :=
          List.drop_eq_nil_of_le (by omega)
        rw [hrun, hdrop, hdropnil]
        simp
      · have hf3 : fireSegmentEnd
              { st with
                  notifications := st.notifications ++ [some iv.id]
                  commands := st.commands
                    ++ [PlayerCmd.seekTo iv.startTime true, PlayerCmd.playVideo]
                  liveTimers := []
                  intervalTimer := some (st.nextTimerId + 1)
                  nextTimerId := st.nextTimerId + 2 }
            = playCurrentInterval
                { st with
                    currentIntervalIndex := st.currentIntervalIndex + 1
                    notifications := st.notifications ++ [some iv.id]
                    commands := st.commands
                      ++ [PlayerCmd.seekTo iv.startTime true, PlayerCmd.playVideo]
                    liveTimers := []
                    intervalTimer := some (st.nextTimerId + 1)
                    nextTimerId := st.nextTimerId + 2 } := by
          unfold fireSegmentEnd
          split
          · rename_i hcond2
            exact absurd hcond2
              (show ¬ ((st.currentIntervalIndex : Int) ≥ (st.intervals.length : Int) - 1) by
                omega)
          · rfl
        obtain ⟨ihn, ihl, ihp, ihi⟩ := ih
          { st with
              currentIntervalIndex := st.currentIntervalIndex + 1
              notifications := st.notifications ++ [some iv.id]
              commands := st.commands
                ++ [PlayerCmd.seekTo iv.startTime true, PlayerCmd.playVideo]
              liveTimers := []
              intervalTimer := some (st.nextTimerId + 1)
              nextTimerId := st.nextTimerId + 2 }
          hplayer hseq hcb rfl
          (show st.currentIntervalIndex + 1 + m = st.intervals.length by omega)
          (by omega)
        have hrun : drain (2 * (m + 1)) (playCurrentInterval st)
            = drain (2 * m)
                (playCurrentInterval
                  { st with
                      currentIntervalIndex := st.currentIntervalIndex + 1
                      notifications := st.notifications ++ [some iv.id]
                      commands := st.commands
                        ++ [PlayerCmd.seekTo iv.startTime true, PlayerCmd.playVideo]
                      liveTimers := []
                      intervalTimer := some (st.nextTimerId + 1)
                      nextTimerId := st.nextTimerId + 2 }) := by
          rw [e2, e3, hf2, hf3]
        rw [hrun, hdrop]
        refine ⟨?_, ihl, ihp, ihi⟩
        rw [ihn]
        simp

/-- Claim C2: for every non-empty interval list, `playHighlightReel`
followed by letting every pending timer fire to quiescence notifies the
registered observer exactly once per stored interval, in stored
(sorted) order, followed by exactly one none notification, and the run
ends with no live timer and sequencing stopped. -/
theorem c2_reel_notifications (l : List HighlightInterval) (hl : l ≠ []) :
    ((playHighlightReel (setIntervals (setOnIntervalChangeCallback
        (bindPlayer initialEngine readyPlayer)) l).1).2 = none)
    ∧ (drain (2 * l.length)
        (playHighlightReel (setIntervals (setOnIntervalChangeCallback
          (bindPlayer initialEngine readyPlayer)) l).1).1).notifications
        = (sortByStartTime l).map (fun iv => some iv.id) ++ [none]
    ∧ (drain (2 * l.length)
        (playHighlightReel (setIntervals (setOnIntervalChangeCallback
          (bindPlayer initialEngine readyPlayer)) l).1).1).liveTimers = []
    ∧ (drain (2 * l.length)
        (playHighlightReel (setIntervals (setOnIntervalChangeCallback
          (bindPlayer initialEngine readyPlayer)) l).1).1).isPlayingIntervals = false := by
  have hlen : (sortByStartTime l).length = l.length := (List.mergeSort_perm l _).length_eq
  have hne : l.length ≠ 0 := by
    cases l
    · exact absurd rfl hl
    · simp
  have hplay : playHighlightReel (setIntervals (setOnIntervalChangeCallback
      (bindPlayer initialEngine readyPlayer)) l).1
      = (playCurrentInterval
          { player := some readyPlayer
            intervals := sortByStartTime l
            currentIntervalIndex := 0
            isPlayingIntervals := true
            intervalTimer := none
            liveTimers := []
            nextTimerId := 0
            hasCallback := true
            notifications := []
            commands := [PlayerCmd.pauseVideo] }, none) := by
    unfold playHighlightReel pauseIntervals clearIntervalTimer emit setIntervals
      setOnIntervalChangeCallback bindPlayer initialEngine isPlayerReady readyPlayer
    simp [hlen, hne]
  obtain ⟨cn, cl, cp, ci⟩ := playChain l.length
    { player := some readyPlayer
      intervals := sortByStartTime l
      currentIntervalIndex := 0
      isPlayingIntervals := true
      intervalTimer := none
      liveTimers := []
      nextTimerId := 0
      hasCallback := true
      notifications := []
      commands := [PlayerCmd.pauseVideo] }
    rfl rfl rfl rfl
    (show 0 + l.length = (sortByStartTime l).length by rw [hlen]; omega)
    (by omega)
  refine ⟨by rw [hplay], ?_, ?_, ?_⟩
  · rw [hplay]
    simpa using cn
  · rw [hplay]
    simpa using cl
  · rw [hplay]
    simpa using cp

theorem pauseIntervals_proj (st : EngineState) :
    (pauseIntervals st).player = st.player
    ∧ (pauseIntervals st).intervals = st.intervals
    ∧ (pauseIntervals st).currentIntervalIndex = st.currentIntervalIndex
    ∧ (pauseIntervals st).isPlayingIntervals = false
    ∧ (pauseIntervals st).hasCallback = st.hasCallback
    ∧ (pauseIntervals st).notifications = st.notifications := by
  unfold pauseIntervals clearIntervalTimer emit
  cases st.intervalTimer <;> cases st.player <;> simp
  all_goals split <;> simp

theorem seekToIntervalAndPlay_proj (st : EngineState) (i : Int) (p : Player)
    (iv : HighlightInterval)
    (hp : st.player = some p) (hseek : p.hasSeekTo = true)
    (h0 : 0 ≤ i) (hlen : i < (st.intervals.length : Int))
    (hiv : st.intervals[i.toNat]? = some iv) :
    (seekToIntervalAndPlay st i).player = some p
    ∧ (seekToIntervalAndPlay st i).intervals = st.intervals
    ∧ (seekToIntervalAndPlay st i).currentIntervalIndex = i.toNat
    ∧ (seekToIntervalAndPlay st i).isPlayingIntervals = true
    ∧ (seekToIntervalAndPlay st i).notifications = st.notifications := by
  obtain ⟨e1, e2, e3, e4, e5, e6⟩ := pauseIntervals_proj st
  have hcnd : (decide (i < 0) || decide (i ≥ (st.intervals.length : Int))) = false := by
    simp only [Bool.or_eq_false_iff, decide_eq_false_iff_not]
    omega
  unfold seekToIntervalAndPlay
  rw [hcnd]
  simp only [Bool.false_eq_true, if_false]
  simp [emit, armTimer, e1, e2, e6, hp, hiv, hseek]

/-- Claim C6: for every valid index, `seekToIntervalAndPlay` then
immediately `pauseIntervals` then `resumeOrStartFromCurrent` resumes at
that same interval: the cursor still equals the index and the re-seek
targets the startTime of that interval, not the start of the
sequence. -/
theorem c6_seek_pause_resume_roundtrip (st : EngineState) (i : Int) (p : Player)
    (iv : HighlightInterval)
    (hp : st.player = some p) (hready : isPlayerReady st = true)
    (h0 : 0 ≤ i) (hlen : i < (st.intervals.length : Int))
    (hiv : st.intervals[i.toNat]? = some iv) :
    (resumeOrStartFromCurrent (pauseIntervals (seekToIntervalAndPlay st i))).currentIntervalIndex
        = i.toNat
    ∧ (resumeOrStartFromCurrent (pauseIntervals (seekToIntervalAndPlay st i))).commands
        = (pauseIntervals (seekToIntervalAndPlay st i)).commands
          ++ [PlayerCmd.seekTo iv.startTime true, PlayerCmd.playVideo]
    ∧ (resumeOrStartFromCurrent (pauseIntervals (seekToIntervalAndPlay st i))).isPlayingIntervals
        = true := by
  have hb : (p.hasSeekTo && p.hasPlayVideo && p.hasPauseVideo && p.hasGetPlayerState) = true := by
    unfold isPlayerReady at hready
    rwa [hp] at hready
  have hb4 := hb
  simp only [Bool.and_eq_true] at hb4
  have hseek : p.hasSeekTo = true := hb4.1.1.1
  obtain ⟨s1, s2, s3, s4, s5⟩ := seekToIntervalAndPlay_proj st i p iv hp hseek h0 hlen hiv
  obtain ⟨q1, q2, q3, q4, q5, q6⟩ := pauseIntervals_proj (seekToIntervalAndPlay st i)
  have h2player : (pauseIntervals (seekToIntervalAndPlay st i)).player = some p := by
    rw [q1, s1]
  have h2intervals : (pauseIntervals (seekToIntervalAndPlay st i)).intervals = st.intervals := by
    rw [q2, s2]
  have h2index : (pauseIntervals (seekToIntervalAndPlay st i)).currentIntervalIndex = i.toNat := by
    rw [q3, s3]
  have hready2 : isPlayerReady (pauseIntervals (seekToIntervalAndPlay st i)) = true := by
    unfold isPlayerReady
    rw [h2player]
    exact hb
  have hlen2 : ((pauseIntervals (seekToIntervalAndPlay st i)).intervals.length == 0) = false := by
    rw [h2intervals]
    simp only [beq_eq_false_iff_ne, ne_eq]
    omega
  have hres : resumeOrStartFromCurrent (pauseIntervals (seekToIntervalAndPlay st i))
      = playCurrentInterval
          { pauseIntervals (seekToIntervalAndPlay st i) with isPlayingIntervals := true } := by
    unfold resumeOrStartFromCurrent
    rw [hready2]
    simp only [Bool.not_true, Bool.false_eq_true, if_false]
    rw [hlen2]
    simp only [Bool.false_eq_true, if_false]
  have hpc := playCurrentInterval_eq
      { pauseIntervals (seekToIntervalAndPlay st i) with isPlayingIntervals := true } iv
      (by simp [h2player]) (by unfold isPlayerReady; simp [h2player, hb]) rfl
      (by simp [h2intervals, h2index, hiv])
  rw [hres, hpc]
  refine ⟨?_, ?_, ?_⟩ <;> simp [h2index]

/-- Witness for claim C2 on the two-interval list, where the run delivers
the notifications a, b, none. -/
theorem c2_reel_notifications_witness :
    ((playHighlightReel twoIntervalEngine).2 = none)
    ∧ (drain 4 (playHighlightReel twoIntervalEngine).1).notifications
        = (sortByStartTime [intervalB, intervalA]).map (fun iv => some iv.id) ++ [none]
    ∧ (drain 4 (playHighlightReel twoIntervalEngine).1).liveTimers = []
    ∧ (drain 4 (playHighlightReel twoIntervalEngine).1).isPlayingIntervals = false :=
  c2_reel_notifications [intervalB, intervalA] (by decide)

/-- Witness for claim C6 at the two-interval engine and index 1. -/
theorem c6_seek_pause_resume_roundtrip_witness :
    twoIntervalEngine.intervals[(1 : Int).toNat]? = some intervalB
    ∧ ((resumeOrStartFromCurrent
          (pauseIntervals (seekToIntervalAndPlay twoIntervalEngine 1))).currentIntervalIndex
        = (1 : Int).toNat
      ∧ (resumeOrStartFromCurrent
          (pauseIntervals (seekToIntervalAndPlay twoIntervalEngine 1))).commands
          = (pauseIntervals (seekToIntervalAndPlay twoIntervalEngine 1)).commands
            ++ [PlayerCmd.seekTo intervalB.startTime true, PlayerCmd.playVideo]
      ∧ (resumeOrStartFromCurrent
          (pauseIntervals (seekToIntervalAndPlay twoIntervalEngine 1))).isPlayingIntervals
        = true) :=
  ⟨by decide,
   c6_seek_pause_resume_roundtrip twoIntervalEngine 1 readyPlayer intervalB
     (by decide) (by decide) (by decide) (by decide) (by decide)⟩
